import Mathlib

/-
Verification of the serial-plotter ingestion and buffering core
(src/serial_plotter.py). The Python code is shallowly embedded as
executable Lean definitions; machine floats are modelled up to Python
float() acceptance and inf/nan classification (the binary value of a
finite literal is not needed by any property below).
-/

/-- Whitespace characters stripped by Python str.strip() and by
float()/int() around their argument (ASCII subset). -/
def isPySpace (c : Char) : Bool :=
  c = ' ' || c = '\t' || c = '\n' || c = '\r' || c = '\x0b' || c = '\x0c'

/-- Drop leading Python whitespace. -/
def stripLeft (cs : List Char) : List Char := cs.dropWhile isPySpace

/-- Drop trailing Python whitespace. -/
def stripRight (cs : List Char) : List Char := (cs.reverse.dropWhile isPySpace).reverse

/-- Python str.strip(): drop leading and trailing whitespace. -/
def pyStrip (cs : List Char) : List Char := stripRight (stripLeft cs)

/-- Python str.split(sep) for a one-character separator: splits on every
occurrence and keeps empty fields; the empty string yields one empty field. -/
def pySplit (sep : Char) : List Char → List (List Char)
  | [] => [[]]
  | c :: rest =>
    if c = sep then [] :: pySplit sep rest
    else
      match pySplit sep rest with
      | [] => [[c]]
      | h :: t => (c :: h) :: t

/-- Consume one optional leading sign; returns (isNegative, rest). -/
def dropSign : List Char → Bool × List Char
  | '+' :: rest => (false, rest)
  | '-' :: rest => (true, rest)
  | cs => (false, cs)

/-- Tail of a Python digit part: digits with single underscores allowed
only between digits. -/
def isDigitPartRest : List Char → Bool
  | [] => true
  | '_' :: rest =>
    match rest with
    | [] => false
    | c :: rest2 => c.isDigit && isDigitPartRest rest2
  | c :: rest => c.isDigit && isDigitPartRest rest

/-- Python digit part: at least one digit, underscores only between digits. -/
def isDigitPart (cs : List Char) : Bool :=
  match cs with
  | [] => false
  | c :: rest => c.isDigit && isDigitPartRest rest

/-- Split a float body at the first exponent marker e or E, when present. -/
def splitExp : List Char → List Char × Option (List Char)
  | [] => ([], none)
  | c :: rest =>
    if c = 'e' || c = 'E' then ([], some rest)
    else
      let r := splitExp rest
      (c :: r.1, r.2)

/-- Mantissa of a Python float literal: digits, digits dot optional-digits,
or dot digits. -/
def isMantissa (cs : List Char) : Bool :=
  match pySplit '.' cs with
  | [d] => isDigitPart d
  | [a, b] => (isDigitPart a && (b.isEmpty || isDigitPart b)) || (a.isEmpty && isDigitPart b)
  | _ => false

/-- Exponent of a Python float literal: optional sign then a digit part. -/
def isExpPart (cs : List Char) : Bool := isDigitPart (dropSign cs).2

/-- Numeric body of a Python float literal after sign removal:
mantissa with an optional exponent. -/
def isNumericBody (cs : List Char) : Bool :=
  let p := splitExp cs
  isMantissa p.1 && (match p.2 with | none => true | some e => isExpPart e)

/-- Classification of a value accepted by Python float(): a finite decimal
literal, an infinity keyword, or the nan keyword. Overflowing decimal
literals (which Python also maps to an infinity) are not distinguished
from finite ones; the inf and nan keyword forms suffice for every
property below. -/
inductive PyFloatVal where
  | numeric : PyFloatVal
  | inf : PyFloatVal
  | negInf : PyFloatVal
  | nan : PyFloatVal
deriving DecidableEq, Repr

/-- A classified float value is finite exactly when it came from a
decimal literal. -/
def isFiniteVal : PyFloatVal → Bool
  | .numeric => true
  | _ => false

/-- Python float(s) on a character list: strip whitespace, take an optional
sign, then accept the keywords inf, infinity, nan (case-insensitive) or a
decimal literal; anything else raises ValueError, modelled as none. -/
def pyFloatChars (cs : List Char) : Option PyFloatVal :=
  let s := pyStrip cs
  let p := dropSign s
  let l := p.2.map Char.toLower
  if l = "inf".data || l = "infinity".data then some (if p.1 then .negInf else .inf)
  else if l = "nan".data then some .nan
  else if isNumericBody p.2 then some .numeric
  else none

/-- One parsed sample: the tuple of values from one accepted input line. -/
abbrev Sample := List PyFloatVal

/-- The list comprehension float(x) for x in fields: all-or-nothing, the
first failing field aborts the whole line. -/
def parseFields : List (List Char) → Option (List PyFloatVal)
  | [] => some []
  | f :: rest =>
    match pyFloatChars f, parseFields rest with
    | some v, some vs => some (v :: vs)
    | _, _ => none

/-- The sample parser applied to a decoded line: split on comma, float
each field, reject the whole line if any field fails. -/
def parseLineChars (cs : List Char) : Option (List PyFloatVal) :=
  parseFields (pySplit ',' cs)

/-- One raw line as delivered by readline().decode(): the code strips it
and then parses it. -/
def parseLineRaw (raw : String) : Option Sample :=
  parseLineChars (pyStrip raw.data)

/-- Decimal value of a digit part, skipping underscores. -/
def digitsVal (cs : List Char) : Nat :=
  cs.foldl (fun acc c => if c = '_' then acc else acc * 10 + (c.toNat - 48)) 0

/-- Python int(s): strip whitespace, optional sign, then a base-10 digit
part with underscores between digits; anything else raises ValueError. -/
def pyIntChars (cs : List Char) : Option Int :=
  let s := pyStrip cs
  let p := dropSign s
  if isDigitPart p.2 then
    some (if p.1 then -(digitsVal p.2 : Int) else (digitsVal p.2 : Int))
  else none

/-- Python int() on a string. -/
def pyInt (s : String) : Option Int := pyIntChars s.data

/-- Python xs[-n:] for an arbitrary integer n: the last n elements when
0 < n, the whole list when n = 0, and xs[(-n):] when n is negative. -/
def pyTailSlice (n : Int) (xs : List α) : List α :=
  if 0 < n then xs.drop (xs.length - n.toNat)
  else if n = 0 then xs
  else xs.drop (-n).toNat

example : pyFloatChars "1.0".data = some PyFloatVal.numeric := by decide
example : pyFloatChars " -3 ".data = some PyFloatVal.numeric := by decide
example : pyFloatChars "2.5e-3".data = some PyFloatVal.numeric := by decide
example : pyFloatChars "abc".data = none := by decide
example : pyFloatChars "".data = none := by decide
example : pyFloatChars "Inf".data = some PyFloatVal.inf := by decide
example : pyFloatChars "-infinity".data = some PyFloatVal.negInf := by decide
example : pyFloatChars "nan".data = some PyFloatVal.nan := by decide
example : pyFloatChars "1_0.5".data = some PyFloatVal.numeric := by decide
example : pyFloatChars "1_".data = none := by decide
example : pyFloatChars "1.2.3".data = none := by decide
example : pyFloatChars ".".data = none := by decide
example : pyFloatChars "1.".data = some PyFloatVal.numeric := by decide
example : pyFloatChars ".5".data = some PyFloatVal.numeric := by decide
example : pyFloatChars "1e".data = none := by decide
example : parseLineRaw "1.0,2.5,-3" =
    some [PyFloatVal.numeric, PyFloatVal.numeric, PyFloatVal.numeric] := by decide
example : parseLineRaw "1.0,abc,3" = none := by decide
example : parseLineRaw "" = none := by decide
example : pyInt "10" = some 10 := by decide
example : pyInt " -42 " = some (-42) := by decide
example : pyInt "abc" = none := by decide
example : pyInt "1.5" = none := by decide
example : pyTailSlice 2 [1, 2, 3, 4] = [3, 4] := by decide
example : pyTailSlice 0 [1, 2, 3] = [1, 2, 3] := by decide
example : pyTailSlice 10 [1, 2] = [1, 2] := by decide

/-- The state of the plotter that the ingestion and buffering core reads
and writes. Widget handles are reduced to what they carry: plot lines to
their count, checkboxes to their label texts, the error label to its text.
The serial handle is reduced to whether an open connection exists. -/
structure PlotterState where
  data : List Sample
  totalDataCount : Nat
  numLines : Nat
  checkboxNames : List String
  maxPoints : Int
  isRunning : Bool
  connected : Bool
  errorMsg : String
  savedNames : List String
deriving Repr

/-- Accumulator of the readline loop in update_plot: the buffer, the
total counter, the last successfully parsed values and the new_data flag. -/
structure IngestResult where
  data : List Sample
  count : Nat
  values : Sample
  newData : Bool
deriving Repr

/-- The while self.serial.in_waiting loop of update_plot: each available
line is stripped and parsed; an accepted line is appended to the buffer
and counted, a rejected line is ignored and leaves values unchanged. -/
def ingestLoop (acc : IngestResult) : List String → IngestResult
  | [] => acc
  | raw :: rest =>
    match parseLineRaw raw with
    | some vs => ingestLoop ⟨acc.data ++ [vs], acc.count + 1, vs, true⟩ rest
    | none => ingestLoop acc rest

/-- Number of lines in a tick that the parser accepts. -/
def acceptedCount (ls : List String) : Nat :=
  (ls.filter (fun raw => (parseLineRaw raw).isSome)).length

/-- Body of the while len(self.lines) < len(values) loop, with its exact
iteration count made explicit as fuel: each pass creates one plot line
and, while the checkbox list is still shorter than the target width, one
checkbox labelled with the new number of lines. -/
def growLoop : Nat → Nat → List String → Nat → Nat × List String
  | 0, n, bs, _ => (n, bs)
  | k + 1, n, bs, w =>
    let n2 := n + 1
    let bs2 := if bs.length < w then bs ++ ["Data " ++ toString n2] else bs
    growLoop k n2 bs2 w

/-- The channel-creation loop of update_plot, lines 271 to 276: grow the
plot lines (and lagging checkboxes) up to the width of values. The loop
runs exactly w - n times. -/
def growChannels (n : Nat) (boxes : List String) (w : Nat) : Nat × List String :=
  growLoop (w - n) n boxes w

/-- update_plot: when connected and running, drain all available lines,
trim the buffer to the last max_points entries, and if new data arrived
grow the channels to the width of the last successfully parsed values. -/
def updatePlot (st : PlotterState) (rawLines : List String) : PlotterState :=
  if st.connected && st.isRunning then
    let r := ingestLoop ⟨st.data, st.totalDataCount, [], false⟩ rawLines
    let data2 := pyTailSlice st.maxPoints r.data
    if r.newData && !r.values.isEmpty then
      let g := growChannels st.numLines st.checkboxNames r.values.length
      { st with data := data2, totalDataCount := r.count,
                numLines := g.1, checkboxNames := g.2 }
    else
      { st with data := data2, totalDataCount := r.count }
  else st

/-- clear_plot: empty the buffer, remove all plot lines, reset the total
counter, and rebuild the checkboxes from the names saved in settings. -/
def clearPlot (st : PlotterState) : PlotterState :=
  { st with data := [], numLines := 0, totalDataCount := 0,
            checkboxNames := st.savedNames }

/-- update_max_points: int() of the field text on success replaces
max_points; a ValueError is swallowed and nothing changes. -/
def updateMaxPoints (st : PlotterState) (text : String) : PlotterState :=
  match pyInt text with
  | some n => { st with maxPoints := n }
  | none => st

/-- disconnect_serial: drop the handle, disable running. The buffer and
the total counter are untouched. -/
def disconnectSerial (st : PlotterState) : PlotterState :=
  if st.connected then { st with connected := false, isRunning := false }
  else st

/-- toggle_run_stop: flip the running flag while connected. -/
def toggleRunStop (st : PlotterState) : PlotterState :=
  if st.connected then { st with isRunning := !st.isRunning }
  else st

/-- The retrying message written by connect_serial after a failed attempt
that will be retried; k is the 1-based attempt number. -/
def retryMsg (k : Nat) : String :=
  "Connection attempt " ++ toString k ++ " failed. Retrying..."

/-- The final error message written by connect_serial when the last
attempt fails; e is the exception text. -/
def connectFailMsg (e : String) : String :=
  "Error: " ++ e ++
    "\nTry closing other programs using this port or restart your computer."

/-- The success branch of connect_serial: open handle, clear the plot,
blank the error label, enable and start running. -/
def connectSuccessState (st : PlotterState) : PlotterState :=
  let st2 := clearPlot { st with connected := true }
  { st2 with errorMsg := "", isRunning := true }

/-- The for attempt in range(3) loop of connect_serial. The outcome of
attempt i is outcomes i: none means the port opened, some e means
serial.SerialException with text e. Returns the final state and the
number of attempts made. The fixed 1 second sleep between attempts is a
real-time effect with no state content and is not modelled. -/
def connectLoop (outcomes : Nat → Option String) :
    Nat → Nat → PlotterState → PlotterState × Nat
  | 0, attempt, st => (st, attempt)
  | fuel + 1, attempt, st =>
    match outcomes attempt with
    | none => (connectSuccessState st, attempt + 1)
    | some e =>
      if attempt < 2 then
        connectLoop outcomes fuel (attempt + 1) { st with errorMsg := retryMsg (attempt + 1) }
      else ({ st with errorMsg := connectFailMsg e }, attempt + 1)

/-- connect_serial: up to retry_count = 3 attempts. -/
def connectSerial (outcomes : Nat → Option String) (st : PlotterState) :
    PlotterState × Nat :=
  connectLoop outcomes 3 0 st

/-- The per-channel y series of update_plot_data, line 293: the values at
index i of exactly those buffered samples that are wide enough,
in buffer order. -/
def yData (i : Nat) (data : List (List α)) : List α :=
  data.filterMap (fun d => d.get? i)

/-- Python range(a, b) over naturals. -/
def pyRange (a b : Nat) : List Nat := List.range' a (b - a)

/-- Number of buffered samples whose width exceeds i. -/
def widthCount (i : Nat) (data : List (List α)) : Nat :=
  (data.filter (fun d => decide (i < d.length))).length

/-- The series rendered for a checked channel i in update_plot_data,
lines 293 to 296: x runs from max(0, total - len(y)) to total (here
truncated natural subtraction), y is the guarded column extraction. -/
def renderedSeries (total : Nat) (data : List (List α)) (i : Nat) :
    List Nat × List α :=
  (pyRange (total - (yData i data).length) total, yData i data)

/-- The x origin of the visible window set at line 317:
max(0, total_data_count - max_points). -/
def windowStart (st : PlotterState) : Int :=
  max 0 ((st.totalDataCount : Int) - st.maxPoints)

/-- The last m elements of a list: the normal form of the trim at
line 268 for a positive cap. -/
def lastN (m : Nat) (xs : List α) : List α := xs.drop (xs.length - m)

/-- Appending one sample and trimming, the per-sample view of lines 259
and 268 whose fold the tick-level code equals. -/
def pushSample (mp : Int) (buf : List α) (s : α) : List α :=
  pyTailSlice mp (buf ++ [s])

example : (growChannels 0 [] 3).2 = ["Data 1", "Data 2", "Data 3"] := by decide
example : (growChannels 2 ["A", "B"] 4).2 = ["A", "B", "Data 3", "Data 4"] := by decide
example : (growChannels 3 ["A", "B", "C"] 2) = (3, ["A", "B", "C"]) := by decide
example : yData 1 [[1, 2, 3], [9], [5, 6]] = [2, 6] := by decide
example : renderedSeries 5 [[1, 2, 3], [9], [5, 6]] 1 = ([3, 4], [2, 6]) := by decide

lemma parseFields_isSome (fs : List (List Char)) :
    (parseFields fs).isSome = true ↔ ∀ f ∈ fs, (pyFloatChars f).isSome = true := by
  induction fs with
  | nil => simp [parseFields]
  | cons f rest ih =>
    simp only [parseFields]
    cases hf : pyFloatChars f <;> cases hr : parseFields rest <;>
      simp_all [List.forall_mem_cons]

lemma parseFields_length (fs : List (List Char)) (vs : List PyFloatVal)
    (h : parseFields fs = some vs) : vs.length = fs.length := by
  induction fs generalizing vs with
  | nil =>
    simp only [parseFields, Option.some.injEq] at h
    simp [← h]
  | cons f rest ih =>
    simp only [parseFields] at h
    cases hf : pyFloatChars f <;> cases hr : parseFields rest <;>
      simp only [hf, hr] at h
    · exact absurd h (by simp)
    · exact absurd h (by simp)
    · exact absurd h (by simp)
    · injection h with h2
      subst h2
      simp [ih _ hr]

lemma dropWhile_replicate_space (n : Nat) (l : List Char) :
    (List.replicate n ' ' ++ l).dropWhile isPySpace = l.dropWhile isPySpace := by
  induction n with
  | zero => simp
  | succ k ih =>
    rw [List.replicate_succ, List.cons_append, List.dropWhile_cons]
    simpa using ih

lemma stripLeft_spaces_append (a : Nat) (l : List Char) :
    stripLeft (List.replicate a ' ' ++ l) = stripLeft l :=
  dropWhile_replicate_space a l

lemma stripRight_append_spaces (l : List Char) (b : Nat) :
    stripRight (l ++ List.replicate b ' ') = stripRight l := by
  unfold stripRight
  rw [List.reverse_append, List.reverse_replicate, dropWhile_replicate_space]

lemma pyStrip_pad (a b : Nat) (l : List Char) :
    pyStrip (List.replicate a ' ' ++ l ++ List.replicate b ' ') = pyStrip l := by
  unfold pyStrip
  rw [List.append_assoc, stripLeft_spaces_append]
  induction l with
  | nil =>
    have h0 : stripLeft (List.replicate b ' ') = [] := by
      have h1 := dropWhile_replicate_space b []
      simpa [stripLeft] using h1
    rw [show ([] : List Char) ++ List.replicate b ' ' = List.replicate b ' ' from rfl, h0]
    rfl
  | cons c t ih =>
    by_cases hc : isPySpace c = true
    · rw [show (c :: t) ++ List.replicate b ' ' = c :: (t ++ List.replicate b ' ') from rfl] at *
      rw [stripLeft, List.dropWhile_cons, if_pos hc]
      rw [stripLeft, List.dropWhile_cons, if_pos hc]
      exact ih
    · rw [show (c :: t) ++ List.replicate b ' ' = c :: (t ++ List.replicate b ' ') from rfl]
      rw [stripLeft, List.dropWhile_cons, if_neg hc]
      rw [stripLeft, List.dropWhile_cons, if_neg hc]
      rw [show c :: (t ++ List.replicate b ' ') = (c :: t) ++ List.replicate b ' ' from rfl]
      exact stripRight_append_spaces (c :: t) b

lemma pyFloatChars_pad (a b : Nat) (f : List Char) :
    pyFloatChars (List.replicate a ' ' ++ f ++ List.replicate b ' ') = pyFloatChars f := by
  unfold pyFloatChars
  rw [pyStrip_pad]

/-- C1 (amended): the sample parser is all-or-nothing over the comma
split of the line: it accepts exactly when every field is accepted by
Python float() (finite or not), the accepted tuple has one value per
field, the empty line is rejected, and whitespace padding around a field
does not change how the field parses. -/
theorem sample_parser_all_or_nothing (line : List Char) (a b : Nat) (f : List Char) :
    ((parseLineChars line).isSome = true ↔
      ∀ g ∈ pySplit ',' line, (pyFloatChars g).isSome = true)
    ∧ (∀ vs, parseLineChars line = some vs → vs.length = (pySplit ',' line).length)
    ∧ parseLineChars [] = none
    ∧ pyFloatChars (List.replicate a ' ' ++ f ++ List.replicate b ' ') = pyFloatChars f := by
  refine ⟨parseFields_isSome _, ?_, rfl, pyFloatChars_pad a b f⟩
  intro vs h
  exact parseFields_length _ _ h

/-- C1 witness: concrete instance of the amended parser theorem. -/
theorem sample_parser_all_or_nothing_witness :
    parseLineChars [] = none
    ∧ pyFloatChars (List.replicate 2 ' ' ++ "-3".data ++ List.replicate 1 ' ') =
        pyFloatChars "-3".data := by
  exact ⟨(sample_parser_all_or_nothing "1.0".data 2 1 "-3".data).2.2.1,
         (sample_parser_all_or_nothing "1.0".data 2 1 "-3".data).2.2.2⟩

/-- C1 counterexample: the line inf is accepted by the code as a one-field
sample whose value is not finite, so acceptance does not require every
field to parse as a finite floating-point number. -/
theorem sample_parser_accepts_nonfinite :
    parseLineChars "inf".data = some [PyFloatVal.inf]
    ∧ isFiniteVal PyFloatVal.inf = false := by
  exact ⟨by decide, rfl⟩

lemma lastN_eq_rtake (m : Nat) (xs : List α) : lastN m xs = xs.rtake m := rfl

lemma pyTailSlice_pos (n : Int) (h : 1 ≤ n) (xs : List α) :
    pyTailSlice n xs = lastN n.toNat xs := by
  unfold pyTailSlice lastN
  rw [if_pos (by omega : (0 : Int) < n)]

lemma lastN_length_le (m : Nat) (xs : List α) : (lastN m xs).length ≤ m := by
  simp [lastN]
  omega

lemma lastN_absorb (m : Nat) (xs ys : List α) :
    lastN m (lastN m xs ++ ys) = lastN m (xs ++ ys) := by
  calc lastN m (lastN m xs ++ ys)
      = ((ys.reverse ++ xs.reverse.take m).take m).reverse := by
        rw [lastN_eq_rtake, lastN_eq_rtake, List.rtake_eq_reverse_take_reverse,
          List.rtake_eq_reverse_take_reverse, List.reverse_append, List.reverse_reverse]
    _ = (ys.reverse.take m ++ (xs.reverse.take m).take (m - ys.reverse.length)).reverse := by
        rw [List.take_append_eq_append_take]
    _ = (ys.reverse.take m ++ xs.reverse.take (m - ys.reverse.length)).reverse := by
        rw [List.take_take, Nat.min_eq_left (Nat.sub_le m _)]
    _ = ((ys.reverse ++ xs.reverse).take m).reverse := by
        rw [List.take_append_eq_append_take]
    _ = lastN m (xs ++ ys) := by
        rw [lastN_eq_rtake, List.rtake_eq_reverse_take_reverse, List.reverse_append]

lemma foldl_pushSample (mp : Int) (h : 1 ≤ mp) (new buf : List α) :
    new.foldl (pushSample mp) (lastN mp.toNat buf) = lastN mp.toNat (buf ++ new) := by
  induction new generalizing buf with
  | nil => simp
  | cons s rest ih =>
    rw [List.foldl_cons,
      show pushSample mp (lastN mp.toNat buf) s = pyTailSlice mp (lastN mp.toNat buf ++ [s])
        from rfl,
      pyTailSlice_pos mp h, lastN_absorb, ih (buf ++ [s]), List.append_assoc,
      List.singleton_append]

/-- C2: the buffer never exceeds max_points after any push; pushing more
than max_points samples retains exactly the last max_points in arrival
order; and the tick-level operation of the code (append all new samples,
then one trailing slice at line 268) equals the per-push fold, so the
bound holds at every observable state. -/
theorem buffer_bound_and_retention {α : Type} (mp : Int) (hmp : 1 ≤ mp) (ss : List α) :
    (∀ k, ((ss.take k).foldl (pushSample mp) []).length ≤ mp.toNat)
    ∧ (mp.toNat < ss.length →
        ss.foldl (pushSample mp) [] = ss.drop (ss.length - mp.toNat))
    ∧ (∀ buf new : List α,
        new.foldl (pushSample mp) (pyTailSlice mp buf) = pyTailSlice mp (buf ++ new)) := by
  have hfold : ∀ l : List α, l.foldl (pushSample mp) [] = lastN mp.toNat l := by
    intro l
    have h1 := foldl_pushSample mp hmp l []
    simpa [lastN] using h1
  refine ⟨?_, ?_, ?_⟩
  · intro k
    rw [hfold]
    exact lastN_length_le _ _
  · intro _
    rw [hfold]
    rfl
  · intro buf new
    rw [pyTailSlice_pos mp hmp, pyTailSlice_pos mp hmp, foldl_pushSample mp hmp]

/-- C2 witness: cap 2, three pushes. -/
theorem buffer_bound_and_retention_witness :
    ((([1, 2, 3] : List Nat).take 3).foldl (pushSample 2) []).length ≤ (2 : Int).toNat
    ∧ ([1, 2, 3] : List Nat).foldl (pushSample 2) [] = [2, 3] := by
  refine ⟨(buffer_bound_and_retention 2 (by decide) [1, 2, 3]).1 3, ?_⟩
  rw [(buffer_bound_and_retention 2 (by decide) [1, 2, 3]).2.1 (by decide)]
  decide

lemma updatePlot_nil (st : PlotterState) (hc : st.connected = true)
    (hr : st.isRunning = true) :
    updatePlot st [] = { st with data := pyTailSlice st.maxPoints st.data } := by
  simp [updatePlot, hc, hr, ingestLoop]

/-- C3 counterexample: with 50 buffered samples and max_points 100,
submitting 10 updates max_points but leaves all 50 samples in the
buffer, so the trim is not immediate. -/
def exState3 : PlotterState :=
  { data := List.replicate 50 [PyFloatVal.numeric], totalDataCount := 50, numLines := 1,
    checkboxNames := ["Data 1"], maxPoints := 100, isRunning := false, connected := false,
    errorMsg := "", savedNames := [] }

/-- C3 counterexample theorem: update_max_points alone does not trim. -/
theorem set_capacity_not_immediate :
    (updateMaxPoints exState3 "10").maxPoints = 10
    ∧ (updateMaxPoints exState3 "10").data = exState3.data
    ∧ exState3.data.length = 50 :=
  ⟨rfl, rfl, by decide⟩

/-- C3 (amended): submitting a parsable capacity n updates max_points at
once, and the buffer is trimmed to the most recent n samples at the next
timer tick while connected and running, even with no new input. -/
theorem set_capacity_trims_on_next_tick (st : PlotterState) (text : String) (n : Int)
    (hc : st.connected = true) (hr : st.isRunning = true)
    (hp : pyInt text = some n) (hn : 1 ≤ n) :
    (updateMaxPoints st text).maxPoints = n
    ∧ (updatePlot (updateMaxPoints st text) []).data =
        st.data.drop (st.data.length - n.toNat)
    ∧ ((updatePlot (updateMaxPoints st text) []).data).length ≤ n.toNat := by
  have h1 : updateMaxPoints st text = { st with maxPoints := n } := by
    simp [updateMaxPoints, hp]
  have h2 : updatePlot { st with maxPoints := n } [] =
      { st with maxPoints := n, data := pyTailSlice n st.data } :=
    updatePlot_nil { st with maxPoints := n } hc hr
  refine ⟨by rw [h1], ?_, ?_⟩
  · rw [h1, h2]
    rw [show ({ st with maxPoints := n, data := pyTailSlice n st.data } :
        PlotterState).data = pyTailSlice n st.data from rfl, pyTailSlice_pos n hn]
    rfl
  · rw [h1, h2]
    rw [show ({ st with maxPoints := n, data := pyTailSlice n st.data } :
        PlotterState).data = pyTailSlice n st.data from rfl, pyTailSlice_pos n hn]
    exact lastN_length_le _ _

/-- C3 witness state: three buffered samples, connected and running. -/
def exState3w : PlotterState :=
  { data := [[PyFloatVal.numeric], [PyFloatVal.numeric], [PyFloatVal.numeric]],
    totalDataCount := 3, numLines := 1, checkboxNames := ["Data 1"], maxPoints := 100,
    isRunning := true, connected := true, errorMsg := "", savedNames := [] }

/-- C3 witness: capacity 2 on a 3-sample buffer trims at the next tick. -/
theorem set_capacity_trims_on_next_tick_witness :
    (updateMaxPoints exState3w "2").maxPoints = 2
    ∧ (updatePlot (updateMaxPoints exState3w "2") []).data =
        exState3w.data.drop (exState3w.data.length - (2 : Int).toNat) := by
  have h := set_capacity_trims_on_next_tick exState3w "2" 2 rfl rfl (by decide) (by decide)
  exact ⟨h.1, h.2.1⟩

lemma yData_eq_map_filter {α : Type} [Inhabited α] (i : Nat) (data : List (List α)) :
    yData i data =
      (data.filter (fun d => decide (i < d.length))).map (fun d => d.getD i default) := by
  induction data with
  | nil => rfl
  | cons d rest ih =>
    simp only [yData, List.filterMap_cons, List.filter_cons]
    by_cases hd : i < d.length
    · rw [List.get?_eq_getElem?, List.getElem?_eq_getElem hd,
        if_pos (show decide (i < d.length) = true by simpa using hd), List.map_cons,
        List.getD_eq_getElem _ _ hd]
      exact congrArg _ ih
    · have hle : d.length ≤ i := Nat.le_of_not_lt hd
      rw [List.get?_eq_getElem?, List.getElem?_eq_none hle,
        if_neg (show ¬decide (i < d.length) = true by simpa using hd)]
      exact ih

lemma yData_length {α : Type} [Inhabited α] (i : Nat) (data : List (List α)) :
    (yData i data).length = widthCount i data := by
  rw [yData_eq_map_filter, List.length_map]
  rfl

/-- C4: for a channel with tuple index i, the rendered x values are the
half-open range from total - c to total where c counts the buffered
samples wider than i, the y values are exactly the index-i entries of
those samples in buffer order, and the two sequences pair up with equal
length. The hypothesis c ≤ total holds in every reachable state since
each buffered sample was counted when it arrived. -/
theorem visible_series_shape {α : Type} [Inhabited α] (i total : Nat)
    (data : List (List α)) (h : widthCount i data ≤ total) :
    (renderedSeries total data i).1 =
      List.range' (total - widthCount i data) (widthCount i data)
    ∧ (renderedSeries total data i).2 =
      (data.filter (fun d => decide (i < d.length))).map (fun d => d.getD i default)
    ∧ (renderedSeries total data i).1.length = (renderedSeries total data i).2.length := by
  have hy : (yData i data).length = widthCount i data := yData_length i data
  refine ⟨?_, yData_eq_map_filter i data, ?_⟩
  · show pyRange (total - (yData i data).length) total = _
    unfold pyRange
    rw [hy]
    congr 1
    omega
  · show (pyRange (total - (yData i data).length) total).length = (yData i data).length
    unfold pyRange
    rw [List.length_range']
    omega

/-- C4 witness data: three buffered samples of widths 3, 1, 2. -/
def exData4 : List (List Nat) := [[1, 2, 3], [9], [5, 6]]

/-- C4 witness: channel index 1 over the mixed-width buffer at total 5. -/
theorem visible_series_shape_witness :
    (renderedSeries 5 exData4 1).1 =
      List.range' (5 - widthCount 1 exData4) (widthCount 1 exData4)
    ∧ (renderedSeries 5 exData4 1).2 =
      (exData4.filter (fun d => decide (1 < d.length))).map (fun d => d.getD 1 default) := by
  have h := visible_series_shape 1 5 exData4 (by decide)
  exact ⟨h.1, h.2.1⟩

/-- C9: a width-3 sample followed later by a width-2 sample leaves every
series well defined: channel index 2 stops extending at the narrow
sample (its series is unchanged by it) while channels 0 and 1 keep
extending; indexing is guarded by each sample's width, so no
out-of-range access exists in the model. -/
theorem mixed_width_no_crash {α : Type} [Inhabited α] (pre : List (List α))
    (s3 s2 : List α) (h3 : s3.length = 3) (h2 : s2.length = 2) :
    yData 2 (pre ++ [s3, s2]) = yData 2 (pre ++ [s3])
    ∧ yData 2 (pre ++ [s3]) = yData 2 pre ++ [s3.getD 2 default]
    ∧ yData 1 (pre ++ [s3, s2]) =
        yData 1 pre ++ [s3.getD 1 default, s2.getD 1 default] := by
  have e32 : s3[2]? = some (s3.getD 2 default) := by
    rw [List.getElem?_eq_getElem (by omega), List.getD_eq_getElem _ _ (by omega)]
  have e31 : s3[1]? = some (s3.getD 1 default) := by
    rw [List.getElem?_eq_getElem (by omega), List.getD_eq_getElem _ _ (by omega)]
  have e21 : s2[1]? = some (s2.getD 1 default) := by
    rw [List.getElem?_eq_getElem (by omega), List.getD_eq_getElem _ _ (by omega)]
  have e22 : s2[2]? = none := List.getElem?_eq_none (by omega)
  have f32 : List.filterMap (fun d => d.get? 2) [s3] = [s3.getD 2 default] := by
    simp only [List.filterMap_cons, List.get?_eq_getElem?, e32, List.filterMap_nil]
  have f22 : List.filterMap (fun d => d.get? 2) [s2] = [] := by
    simp only [List.filterMap_cons, List.get?_eq_getElem?, e22, List.filterMap_nil]
  have f12 : List.filterMap (fun d => d.get? 1) [s3, s2] =
      [s3.getD 1 default, s2.getD 1 default] := by
    simp only [List.filterMap_cons, List.get?_eq_getElem?, e31, e21, List.filterMap_nil]
  have hsplit : pre ++ [s3, s2] = (pre ++ [s3]) ++ [s2] := by simp
  refine ⟨?_, ?_, ?_⟩
  · rw [hsplit]
    unfold yData
    rw [List.filterMap_append, f22, List.append_nil]
  · unfold yData
    rw [List.filterMap_append, f32]
  · unfold yData
    rw [List.filterMap_append, f12]

/-- C9 witness: concrete buffer with widths 2 then 3 then 2. -/
theorem mixed_width_no_crash_witness :
    yData 2 ([[10, 20]] ++ [[1, 2, 3], [4, 5]]) = yData 2 ([[10, 20]] ++ [[1, 2, 3]])
    ∧ yData 2 ([[10, 20]] ++ [[1, 2, 3]]) =
        yData 2 [[10, 20]] ++ [([1, 2, 3] : List Nat).getD 2 default] := by
  have h := mixed_width_no_crash [[10, 20]] [1, 2, 3] [4, 5] rfl rfl
  exact ⟨h.1, h.2.1⟩

lemma ingestLoop_count (ls : List String) (acc : IngestResult) :
    (ingestLoop acc ls).count = acc.count + acceptedCount ls := by
  induction ls generalizing acc with
  | nil => simp [ingestLoop, acceptedCount]
  | cons raw rest ih =>
    simp only [ingestLoop]
    cases hp : parseLineRaw raw with
    | some vs =>
      rw [ih]
      simp [acceptedCount, List.filter_cons, hp]
      omega
    | none =>
      rw [ih]
      simp [acceptedCount, List.filter_cons, hp]

lemma updatePlot_count (st : PlotterState) (ls : List String)
    (hc : st.connected = true) (hr : st.isRunning = true) :
    (updatePlot st ls).totalDataCount = st.totalDataCount + acceptedCount ls := by
  have hcount := ingestLoop_count ls ⟨st.data, st.totalDataCount, [], false⟩
  simp only [updatePlot, hc, hr, Bool.and_self, if_true]
  split
  · exact hcount
  · exact hcount

lemma updatePlot_not_running (st : PlotterState) (ls : List String)
    (h : st.connected = false ∨ st.isRunning = false) : updatePlot st ls = st := by
  unfold updatePlot
  rcases h with h | h <;> rw [h] <;> simp

/-- C5 (amended): the total counter is monotone under ticks and is
incremented exactly once per accepted line while connected and running;
it is reset to 0 by the Clear operation, and by nothing else among
max-points updates, disconnect and run/stop toggling; the visible window
origin is max(0, total - max_points). A successful connect also resets
it, because connect_serial itself invokes the Clear operation. -/
theorem counter_behavior (st : PlotterState) (rawLines : List String) (text : String) :
    (st.connected = true → st.isRunning = true →
        (updatePlot st rawLines).totalDataCount =
          st.totalDataCount + acceptedCount rawLines)
    ∧ st.totalDataCount ≤ (updatePlot st rawLines).totalDataCount
    ∧ (clearPlot st).totalDataCount = 0
    ∧ (updateMaxPoints st text).totalDataCount = st.totalDataCount
    ∧ (disconnectSerial st).totalDataCount = st.totalDataCount
    ∧ (toggleRunStop st).totalDataCount = st.totalDataCount
    ∧ windowStart st = max 0 ((st.totalDataCount : Int) - st.maxPoints) := by
  refine ⟨updatePlot_count st rawLines, ?_, rfl, ?_, ?_, ?_, rfl⟩
  · by_cases hc : st.connected = true
    · by_cases hr : st.isRunning = true
      · rw [updatePlot_count st rawLines hc hr]
        omega
      · rw [updatePlot_not_running st rawLines (Or.inr (by simpa using hr))]
    · rw [updatePlot_not_running st rawLines (Or.inl (by simpa using hc))]
  · cases h : pyInt text <;> simp [updateMaxPoints, h]
  · unfold disconnectSerial
    split <;> rfl
  · unfold toggleRunStop
    split <;> rfl

/-- C5 witness state: fresh, connected and running. -/
def exState5 : PlotterState :=
  { data := [], totalDataCount := 0, numLines := 0, checkboxNames := [], maxPoints := 200,
    isRunning := true, connected := true, errorMsg := "", savedNames := [] }

/-- C5 witness: a tick with two accepted lines and one rejected line, and
a Clear. -/
theorem counter_behavior_witness :
    (updatePlot exState5 ["1,2", "x", "3,4"]).totalDataCount =
      exState5.totalDataCount + acceptedCount ["1,2", "x", "3,4"]
    ∧ (clearPlot exState5).totalDataCount = 0 :=
  ⟨(counter_behavior exState5 ["1,2", "x", "3,4"] "7").1 rfl rfl,
   (counter_behavior exState5 ["1,2", "x", "3,4"] "7").2.2.1⟩

/-- C5 counterexample state: disconnected with counter 5. -/
def exState5c : PlotterState :=
  { data := [[PyFloatVal.numeric]], totalDataCount := 5, numLines := 1,
    checkboxNames := ["Data 1"], maxPoints := 200, isRunning := false, connected := false,
    errorMsg := "", savedNames := [] }

/-- Outcome oracle whose first attempt opens the port. -/
def exOutcomesOk : Nat → Option String := fun _ => none

/-- C5 counterexample: a successful connect, which is not the explicit
Clear action, resets the total counter from 5 to 0 because connect_serial
calls clear_plot on success. -/
theorem counter_reset_by_connect :
    exState5c.totalDataCount = 5
    ∧ ((connectSerial exOutcomesOk exState5c).1).totalDataCount = 0 :=
  ⟨rfl, rfl⟩

lemma growLoop_fst (fuel : Nat) (n : Nat) (bs : List String) (w : Nat) :
    (growLoop fuel n bs w).1 = n + fuel := by
  induction fuel generalizing n bs with
  | zero => rfl
  | succ k ih =>
    simp only [growLoop]
    rw [ih]
    omega

lemma growLoop_take (fuel : Nat) (n : Nat) (bs : List String) (w : Nat) :
    (growLoop fuel n bs w).2.take bs.length = bs := by
  induction fuel generalizing n bs with
  | zero => simp [growLoop]
  | succ k ih =>
    simp only [growLoop]
    by_cases hb : bs.length < w
    · rw [if_pos hb]
      have h3 : (growLoop k (n + 1) (bs ++ ["Data " ++ toString (n + 1)]) w).2.take bs.length
          = ((growLoop k (n + 1) (bs ++ ["Data " ++ toString (n + 1)]) w).2.take
              (bs ++ ["Data " ++ toString (n + 1)]).length).take bs.length := by
        rw [List.take_take, Nat.min_eq_left (by simp)]
      rw [h3, ih (n + 1) (bs ++ ["Data " ++ toString (n + 1)]), List.take_left]
    · rw [if_neg hb]
      exact ih (n + 1) bs

lemma growLoop_snd_names (fuel : Nat) (n : Nat) (bs : List String)
    (hsync : bs.length = n) :
    (growLoop fuel n bs (n + fuel)).2 =
      bs ++ (List.range' n fuel).map (fun j => "Data " ++ toString (j + 1)) := by
  induction fuel generalizing n bs with
  | zero => simp [growLoop]
  | succ k ih =>
    simp only [growLoop]
    rw [if_pos (show bs.length < n + (k + 1) by omega)]
    rw [show n + (k + 1) = (n + 1) + k by omega]
    rw [ih (n + 1) (bs ++ ["Data " ++ toString (n + 1)]) (by simp [hsync])]
    rw [List.range'_succ, List.map_cons]
    simp [List.append_assoc]

lemma growChannels_fst (n : Nat) (bs : List String) (w : Nat) :
    (growChannels n bs w).1 = max n w := by
  unfold growChannels
  rw [growLoop_fst]
  omega

lemma growChannels_noop (n : Nat) (bs : List String) (w : Nat) (h : w ≤ n) :
    growChannels n bs w = (n, bs) := by
  unfold growChannels
  rw [show w - n = 0 from by omega]
  rfl

lemma growChannels_names (n : Nat) (bs : List String) (w : Nat)
    (hsync : bs.length = n) :
    (growChannels n bs w).2 =
      bs ++ (List.range' n (w - n)).map (fun j => "Data " ++ toString (j + 1)) := by
  by_cases h : n ≤ w
  · have h2 := growLoop_snd_names (w - n) n bs hsync
    rw [show n + (w - n) = w from by omega] at h2
    exact h2
  · unfold growChannels
    rw [show w - n = 0 from by omega]
    simp [growLoop]

lemma ingestLoop_no_accept (ls : List String) (acc : IngestResult)
    (h : acceptedCount ls = 0) : ingestLoop acc ls = acc := by
  induction ls generalizing acc with
  | nil => rfl
  | cons raw rest ih =>
    simp only [ingestLoop]
    cases hp : parseLineRaw raw with
    | some vs => exact absurd h (by simp [acceptedCount, List.filter_cons, hp])
    | none =>
      have h2 : acceptedCount rest = 0 := by
        simpa [acceptedCount, List.filter_cons, hp] using h
      exact ih _ h2

/-- C6 (amended): the channel registry grows to the width of the last
successfully parsed sample of the tick: the loop creates one plot line
per missing index; with the checkbox list in step with the line count,
each new index j receives the default checkbox name Data j+1; existing
entries are kept verbatim (never recreated or renamed); when the width
does not exceed the current count, or no line of the tick is accepted,
nothing is created. -/
theorem channel_growth (n : Nat) (boxes : List String) (w : Nat)
    (st : PlotterState) (rawLines : List String) :
    (growChannels n boxes w).1 = max n w
    ∧ (w ≤ n → growChannels n boxes w = (n, boxes))
    ∧ (growChannels n boxes w).2.take boxes.length = boxes
    ∧ (boxes.length = n →
        (growChannels n boxes w).2 =
          boxes ++ (List.range' n (w - n)).map (fun j => "Data " ++ toString (j + 1)))
    ∧ (acceptedCount rawLines = 0 →
        (updatePlot st rawLines).numLines = st.numLines
        ∧ (updatePlot st rawLines).checkboxNames = st.checkboxNames) := by
  refine ⟨growChannels_fst n boxes w, growChannels_noop n boxes w,
    growLoop_take _ n boxes w, growChannels_names n boxes w, ?_⟩
  intro h0
  by_cases hc : st.connected = true
  · by_cases hr : st.isRunning = true
    · have hacc := ingestLoop_no_accept rawLines ⟨st.data, st.totalDataCount, [], false⟩ h0
      simp only [updatePlot, hc, hr, Bool.and_self, if_true, hacc]
      exact ⟨rfl, rfl⟩
    · rw [updatePlot_not_running st rawLines (Or.inr (by simpa using hr))]
      exact ⟨rfl, rfl⟩
  · rw [updatePlot_not_running st rawLines (Or.inl (by simpa using hc))]
    exact ⟨rfl, rfl⟩

/-- C6 counterexample state: fresh, connected and running, no channels. -/
def exState6 : PlotterState :=
  { data := [], totalDataCount := 0, numLines := 0, checkboxNames := [], maxPoints := 200,
    isRunning := true, connected := true, errorMsg := "", savedNames := [] }

/-- C6 counterexample: in a tick where a width-3 sample is accepted but a
width-1 sample is parsed last, only one channel is created, not one for
each index of the accepted width-3 sample. -/
theorem channel_growth_counterexample :
    parseLineRaw "1,2,3" =
      some [PyFloatVal.numeric, PyFloatVal.numeric, PyFloatVal.numeric]
    ∧ (updatePlot exState6 ["1,2,3", "4"]).numLines = 1 :=
  ⟨by decide, by decide⟩

/-- C6 witness: growth from one synced channel to width 3, and the lazy
no-op when the width does not exceed the count. -/
theorem channel_growth_witness :
    (growChannels 1 ["Data 1"] 3).2 =
      ["Data 1"] ++ (List.range' 1 (3 - 1)).map (fun j => "Data " ++ toString (j + 1))
    ∧ growChannels 3 ["A", "B", "C"] 2 = (3, ["A", "B", "C"]) :=
  ⟨(channel_growth 1 ["Data 1"] 3 exState6 []).2.2.2.1 rfl,
   (channel_growth 3 ["A", "B", "C"] 2 exState6 []).2.1 (by omega)⟩

/-- C7: when all three open attempts raise SerialException, the loop
makes exactly 3 attempts, surfaces the final error message, and the
state stays disconnected with the running flag still false and the
buffer and counter untouched. The fixed 1 second delay between attempts
is a real-time effect and is not part of the state model. -/
theorem connect_retries_and_fails (st : PlotterState) (outcomes : Nat → Option String)
    (e0 e1 e2 : String)
    (h0 : outcomes 0 = some e0) (h1 : outcomes 1 = some e1) (h2 : outcomes 2 = some e2)
    (hc : st.connected = false) (hr : st.isRunning = false) :
    (connectSerial outcomes st).1.connected = false
    ∧ (connectSerial outcomes st).1.isRunning = false
    ∧ (connectSerial outcomes st).1.errorMsg = connectFailMsg e2
    ∧ (connectSerial outcomes st).1.errorMsg ≠ ""
    ∧ (connectSerial outcomes st).2 = 3
    ∧ (connectSerial outcomes st).1.data = st.data
    ∧ (connectSerial outcomes st).1.totalDataCount = st.totalDataCount := by
  have hrun : connectSerial outcomes st = ({ st with errorMsg := connectFailMsg e2 }, 3) := by
    simp [connectSerial, connectLoop, h0, h1, h2]
  rw [hrun]
  refine ⟨hc, hr, rfl, ?_, rfl, rfl, rfl⟩
  intro hbad
  have hlen := congrArg String.length hbad
  simp [connectFailMsg, String.length_append] at hlen
  exact absurd hlen.1.1 (by decide)

/-- C7 witness state: disconnected, not running. -/
def exState7 : PlotterState :=
  { data := [], totalDataCount := 0, numLines := 0, checkboxNames := [], maxPoints := 200,
    isRunning := false, connected := false, errorMsg := "", savedNames := [] }

/-- Outcome oracle on which every open attempt fails. -/
def exOutcomesFail : Nat → Option String := fun _ => some "could not open port"

/-- C7 witness: three failing attempts leave the concrete state
disconnected after exactly 3 tries. -/
theorem connect_retries_and_fails_witness :
    (connectSerial exOutcomesFail exState7).1.connected = false
    ∧ (connectSerial exOutcomesFail exState7).2 = 3 := by
  have h := connect_retries_and_fails exState7 exOutcomesFail
    "could not open port" "could not open port" "could not open port" rfl rfl rfl rfl rfl
  exact ⟨h.1, h.2.2.2.2.1⟩

/-- C8: the Clear operation empties the History Buffer and resets the
Total Sample Counter to 0 from every prior state; it also removes all
plot lines and rebuilds the checkboxes from the names saved in settings. -/
theorem clear_resets (st : PlotterState) :
    (clearPlot st).data = [] ∧ (clearPlot st).totalDataCount = 0
    ∧ (clearPlot st).numLines = 0 ∧ (clearPlot st).checkboxNames = st.savedNames :=
  ⟨rfl, rfl, rfl, rfl⟩

/-- C10: when the max-points text does not parse as an integer, the
handler swallows the ValueError and the entire state, max_points
included, is unchanged. -/
theorem max_points_error_branch_atomic (st : PlotterState) (text : String)
    (h : pyInt text = none) : updateMaxPoints st text = st := by
  simp [updateMaxPoints, h]

/-- C10 witness state. -/
def exState10 : PlotterState :=
  { data := [], totalDataCount := 0, numLines := 0, checkboxNames := [], maxPoints := 200,
    isRunning := false, connected := false, errorMsg := "", savedNames := [] }

/-- C10 witness: the text abc does not parse and leaves the state intact. -/
theorem max_points_error_branch_atomic_witness :
    pyInt "abc" = none ∧ updateMaxPoints exState10 "abc" = exState10 :=
  ⟨by decide, max_points_error_branch_atomic exState10 "abc" (by decide)⟩
